import Mathlib

/-!
# Call-forwarding routing engine: shallow embedding

This file embeds the three webhook handlers of the repository:

* `call-fowarding.js` — the basic variant (`processCallBasic` below);
* the first handler of `unnamed/part_001` — the optimistic-lock variant,
  which reads the Sync document's etag and conditions the cursor write on
  it (`processCallEtag` below);
* the second handler of `unnamed/part_001` — the blacklist/spam variant,
  which rejects blacklisted callers and high TrueSpam scores before
  routing (`processCallBL` below);

together with their Sync-store helpers (`getCurrentIndex`,
`getSyncDocument`, `updateCurrentIndex`) and list loaders.

Modelling conventions: JavaScript strings are `List Char`; the Sync store
holds at most one document under the fixed unique name
`callForwardingState`; each of the three store calls of one activation can
be made to fail through an injected outcome (`Infra`), which models both
infrastructure failures and the observable result of a concurrent
interleaving (for example, a fetch that reported 404 just before another
leg created the document).  The response callback is modelled by the list
of its invocations, in order, each carrying either the TwiML verbs built
so far or the raw error object (`callback(err)`).
-/

namespace CallForwarding

/-- Status `event.DialCallStatus` as reported by the carrier for the previous
dial attempt; `none` on the initial leg (the JS tests `!event.DialCallStatus`). -/
inductive DialCallStatus
  | inProgress
  | noAnswer
  | busy
  | failed
  | completed
  | answered
deriving DecidableEq

/-- TrueSpam result object (`trueSpam.result`): the `spam_score_match`
flag and the numeric `spam_score`. -/
structure TrueSpamResult where
  spamScoreMatch : Nat
  spamScore : Int
deriving DecidableEq

/-- Payload `addOns.results?.truecnam_truespam`; `successful` models
`trueSpam.status === 'successful'`. -/
structure TrueSpamPayload where
  successful : Bool
  result : Option TrueSpamResult
deriving DecidableEq

/-- Payload `event.AddOns`; `successful` models `addOns.status === 'successful'`. -/
structure AddOnsPayload where
  successful : Bool
  trueSpam : Option TrueSpamPayload
deriving DecidableEq

/-- The input of one webhook activation (`event`). -/
structure CallEvent where
  dialCallStatus : Option DialCallStatus
  From : List Char
  addOns : Option AddOnsPayload
deriving DecidableEq

/-- The E.164 test `/^\+?[1-9]\d{1,14}$/` used by the part_001 loaders:
an optional leading plus sign, one digit 1-9, then 1 to 14 digits. -/
def isE164 (s : List Char) : Bool :=
  let t := match s with
    | '+' :: rest => rest
    | _ => s
  match t with
  | [] => false
  | c :: ds =>
      decide ('1' ≤ c ∧ c ≤ '9') &&
      decide (1 ≤ ds.length ∧ ds.length ≤ 14) &&
      ds.all Char.isDigit

/-- One entry of `phone-numbers.json`'s `whitelistedNumbers`
(an absent `name` is modelled as the empty string, matching the
part_001 `entry.name || ''`). -/
structure WhitelistEntry where
  number : List Char
  name : List Char
deriving DecidableEq

/-- The loaded whitelist: the parallel `numbers` and `names` arrays. -/
structure Whitelist where
  numbers : List (List Char)
  names : List (List Char)
deriving DecidableEq

/-- part_001 `loadWhitelistedNumbers`: keep only the entries whose
`number` passes the E.164 test, then split into the two arrays. -/
def loadWhitelistedNumbers (entries : List WhitelistEntry) : Whitelist :=
  let filtered := entries.filter (fun e => isE164 e.number)
  ⟨filtered.map (fun e => e.number), filtered.map (fun e => e.name)⟩

/-- Loader `loadWhitelistedNumbers` of `call-fowarding.js`: no validation at all,
every entry of the asset is kept. -/
def loadWhitelistedNumbersBasic (entries : List WhitelistEntry) : Whitelist :=
  ⟨entries.map (fun e => e.number), entries.map (fun e => e.name)⟩

/-- part_001 `loadBlacklistedNumbers`: keep only E.164-valid numbers. -/
def loadBlacklistedNumbers (numbers : List (List Char)) : List (List Char) :=
  numbers.filter isE164

/-- Constant `SPAM_THRESHOLD` of the blacklist variant. -/
def SPAM_THRESHOLD : Int := 75

/-- The TrueSpam decision of the blacklist variant's `processCall`:
reject exactly when the add-on payload is present and successful, the
TrueSpam add-on itself is successful with a result object, the result
is a database match (`spam_score_match === 1`) and the score meets the
threshold.  Everything else falls open (call proceeds). -/
def spamGateRejects : Option AddOnsPayload → Bool
  | none => false
  | some a =>
    if a.successful = true then
      match a.trueSpam with
      | some ts =>
        if ts.successful = true then
          match ts.result with
          | some r =>
            if r.spamScoreMatch = 1 then
              decide (SPAM_THRESHOLD ≤ r.spamScore)
            else false
          | none => false
        else false
      | none => false
    else false

/-- Store error classes: HTTP 404 (`notFound`), 412 precondition failed
or create on an already-existing unique name (`conflict`), anything
else (`other`). -/
inductive StoreErr
  | notFound
  | conflict
  | other
deriving DecidableEq

/-- A Sync document: `data` is `data.currentIndex` (every document this
system creates or writes carries the field, so the part_001
`doc.data?.currentIndex ?? 0` default never fires), `etag` is the
revision token. -/
structure SyncDoc where
  data : Nat
  etag : Nat
deriving DecidableEq

/-- The store: at most one document under the fixed unique name
`callForwardingState`. -/
structure SyncState where
  doc : Option SyncDoc
deriving DecidableEq

/-- Injected outcomes for the three store calls of one activation:
`some e` makes the corresponding call fail with `e`.  This models
infrastructure failures and the observable outcome of concurrent
interleavings (for example `fetchFail = some .notFound` while the
document exists: the fetch raced with a concurrent creation). -/
structure Infra where
  fetchFail : Option StoreErr
  createFail : Option StoreErr
  updateFail : Option StoreErr
deriving DecidableEq

/-- All three store calls succeed at the infrastructure level. -/
def healthyInfra : Infra := ⟨none, none, none⟩

/-- Store call `documents(name).fetch()`: 404 when the document is absent. -/
def fetchOp (inj : Option StoreErr) (st : SyncState) : Except StoreErr SyncDoc :=
  match inj with
  | some e => .error e
  | none =>
    match st.doc with
    | none => .error .notFound
    | some d => .ok d

/-- Store call `documents.create({uniqueName, data: {currentIndex: 0}})`: fails with
a conflict when the unique name already exists. -/
def createOp (inj : Option StoreErr) (st : SyncState) : SyncState × Except StoreErr SyncDoc :=
  match inj with
  | some e => (st, .error e)
  | none =>
    match st.doc with
    | none => (⟨some ⟨0, 0⟩⟩, .ok ⟨0, 0⟩)
    | some _ => (st, .error .conflict)

/-- Unconditional `documents(name).update({data: {currentIndex: i}})`:
404 when the document is absent, otherwise writes and bumps the revision. -/
def updateOp (inj : Option StoreErr) (st : SyncState) (newIndex : Nat) :
    SyncState × Except StoreErr Unit :=
  match inj with
  | some e => (st, .error e)
  | none =>
    match st.doc with
    | none => (st, .error .notFound)
    | some d => (⟨some ⟨newIndex, d.etag + 1⟩⟩, .ok ())

/-- Conditional update (`{ ifMatch: etag }`): succeeds only when the
stored revision token still matches; a mismatch is a 412 conflict and
leaves the document untouched. -/
def condUpdateOp (inj : Option StoreErr) (st : SyncState) (newIndex tag : Nat) :
    SyncState × Except StoreErr Unit :=
  match inj with
  | some e => (st, .error e)
  | none =>
    match st.doc with
    | none => (st, .error .notFound)
    | some d =>
      if d.etag = tag then (⟨some ⟨newIndex, d.etag + 1⟩⟩, .ok ())
      else (st, .error .conflict)

/-- The announcement and call-control verbs the handlers emit.  The two
`serviceUnavailable` wordings of the variants are collapsed into one
constructor; the voicemail prompts of `call-fowarding.js` and part_001
differ and get distinct constructors. -/
inductive Say
  | connectedOk
  | serviceUnavailable
  | trying (name : List Char)
  | vmNoOneAvailable
  | vmThankYou
  | vmCouldNotReach
  | vmLeaveMessage
  | vmGoodbye
  | errorOccurred
deriving DecidableEq

/-- TwiML verbs relevant to routing (presentational attributes such as
voice, timeout and caller ID are configuration, not routing state). -/
inductive TwimlVerb
  | say (msg : Say)
  | dial (number : List Char)
  | record
  | reject
  | hangup
deriving DecidableEq

/-- One invocation of the response callback: either `callback(null, twiml)`
with the verbs accumulated so far, or `callback(err)`. -/
inductive CallbackArg
  | twiml (verbs : List TwimlVerb)
  | err (e : StoreErr)
deriving DecidableEq

/-- Announcement name `names[idx] || 'recipient N'`: an out-of-range or empty name falls
back to the default announcement (rendered here as the decimal digits of
the 1-based position standing for the string `recipient N`). -/
def recipientName (wl : Whitelist) (idx : Nat) : List Char :=
  let n := wl.names.getD idx []
  if n = [] then Nat.toDigits 10 (idx + 1) else n

/-- Verbs of `dialNumber(idx)`: the "please wait, trying ..." announcement
followed by the dial of the number at `idx` (identical in all variants). -/
def dialVerbs (wl : Whitelist) (idx : Nat) : List TwimlVerb :=
  [TwimlVerb.say (Say.trying (recipientName wl idx)),
   TwimlVerb.dial (wl.numbers.getD idx [])]

/-- Verbs of `recordVoicemail()` in `call-fowarding.js`. -/
def vmVerbsBasic : List TwimlVerb :=
  [TwimlVerb.say Say.vmNoOneAvailable, TwimlVerb.record,
   TwimlVerb.say Say.vmThankYou, TwimlVerb.hangup]

/-- Verbs of `recordVoicemail()` in both part_001 variants. -/
def vmVerbsP1 : List TwimlVerb :=
  [TwimlVerb.say Say.vmCouldNotReach, TwimlVerb.say Say.vmLeaveMessage,
   TwimlVerb.record, TwimlVerb.say Say.vmGoodbye, TwimlVerb.hangup]

/-- The empty-whitelist apology plus hangup. -/
def unavailableVerbs : List TwimlVerb :=
  [TwimlVerb.say Say.serviceUnavailable, TwimlVerb.hangup]

/-- The part_001 catch-block apology plus hangup. -/
def errVerbs : List TwimlVerb :=
  [TwimlVerb.say Say.errorOccurred, TwimlVerb.hangup]

/-- Flag `this.isInitialCall = !event.DialCallStatus`. -/
def isInitialCall (ev : CallEvent) : Bool :=
  ev.dialCallStatus.isNone

/-- Flag `this.isCallComplete = ['completed', 'answered'].includes(event.DialCallStatus)`. -/
def isCallComplete (ev : CallEvent) : Bool :=
  match ev.dialCallStatus with
  | some .completed => true
  | some .answered => true
  | _ => false

/-- Helper `getSyncDocument()` of `call-fowarding.js`: fetch, and on a 404
create the document with `currentIndex: 0`; any other error, and any
error of the create itself, propagates. -/
def getSyncDocument (infra : Infra) (st : SyncState) :
    SyncState × Except StoreErr SyncDoc :=
  match fetchOp infra.fetchFail st with
  | .ok d => (st, .ok d)
  | .error .notFound => createOp infra.createFail st
  | .error e => (st, .error e)

/-- Helper `getCurrentIndex()` of `call-fowarding.js`: the fetched or created
document's `data.currentIndex`. -/
def getCurrentIndexBasic (infra : Infra) (st : SyncState) :
    SyncState × Except StoreErr Nat :=
  match getSyncDocument infra st with
  | (st1, .ok d) => (st1, .ok d.data)
  | (st1, .error e) => (st1, .error e)

/-- Helper `getCurrentIndexAndEtag()` of the etag variant: same fetch-or-create,
returning the index together with the document's revision token. -/
def getCurrentIndexAndEtag (infra : Infra) (st : SyncState) :
    SyncState × Except StoreErr (Nat × Nat) :=
  match fetchOp infra.fetchFail st with
  | .ok d => (st, .ok (d.data, d.etag))
  | .error .notFound =>
    match createOp infra.createFail st with
    | (st1, .ok d) => (st1, .ok (d.data, d.etag))
    | (st1, .error e) => (st1, .error e)
  | .error e => (st, .error e)

/-- Helper `getCurrentIndex()` of the blacklist variant: same fetch-or-create. -/
def getCurrentIndexBL (infra : Infra) (st : SyncState) :
    SyncState × Except StoreErr Nat :=
  match fetchOp infra.fetchFail st with
  | .ok d => (st, .ok d.data)
  | .error .notFound =>
    match createOp infra.createFail st with
    | (st1, .ok d) => (st1, .ok d.data)
    | (st1, .error e) => (st1, .error e)
  | .error e => (st, .error e)

/-- Writer `updateCurrentIndex(newIndex, etag)` of the etag variant: the write is
conditioned on the token; a 412 conflict is swallowed (warning log only),
every other error is re-raised. -/
def updateCurrentIndexEtag (inj : Option StoreErr) (st : SyncState) (newIndex tag : Nat) :
    SyncState × Except StoreErr Unit :=
  match condUpdateOp inj st newIndex tag with
  | (st1, .ok u) => (st1, .ok u)
  | (st1, .error .conflict) => (st1, .ok ())
  | (st1, .error e) => (st1, .error e)

/-- Writer `updateCurrentIndex(newIndex)` of the blacklist variant: unconditional
write; every error is logged and re-raised. -/
def updateCurrentIndexBL (inj : Option StoreErr) (st : SyncState) (newIndex : Nat) :
    SyncState × Except StoreErr Unit :=
  updateOp inj st newIndex

/-- Handler `processCall()` of `call-fowarding.js`.  The dial verbs are built
before the cursor write, but both response paths run only after the
write's promise settles: success invokes `callback(null, twiml)`,
failure invokes `callback(err)`.  A fetch or create error reaches the
outer catch, which also invokes `callback(err)`. -/
def processCallBasic (wl : Whitelist) (ev : CallEvent) (infra : Infra) (st : SyncState) :
    List CallbackArg × SyncState :=
  match getCurrentIndexBasic infra st with
  | (st1, .error e) => ([CallbackArg.err e], st1)
  | (st1, .ok currentIndex) =>
    if isCallComplete ev = true then
      ([CallbackArg.twiml [TwimlVerb.say Say.connectedOk]], st1)
    else if wl.numbers.length = 0 then
      ([CallbackArg.twiml unavailableVerbs], st1)
    else if isInitialCall ev = false ∧ wl.numbers.length ≤ currentIndex then
      ([CallbackArg.twiml vmVerbsBasic], st1)
    else
      let idx := if isInitialCall ev = true ∧ wl.numbers.length ≤ currentIndex then 0
                 else currentIndex
      let safeIndex := idx % wl.numbers.length
      match updateOp infra.updateFail st1 (idx + 1) with
      | (st2, .ok _) => ([CallbackArg.twiml (dialVerbs wl safeIndex)], st2)
      | (st2, .error e) => ([CallbackArg.err e], st2)

/-- Handler `processCall()` of the etag variant.  On the dial path the response
is sent before the conditional cursor write (`callback` precedes
`await updateCurrentIndex`); a swallowed 412 leaves it at that, but any
re-raised write error falls into the catch block, which appends the
apology to the same TwiML object and invokes the callback a second
time.  Fetch/create errors reach the catch before any response. -/
def processCallEtag (wl : Whitelist) (ev : CallEvent) (infra : Infra) (st : SyncState) :
    List CallbackArg × SyncState :=
  match getCurrentIndexAndEtag infra st with
  | (st1, .error _e) => ([CallbackArg.twiml errVerbs], st1)
  | (st1, .ok (currentIndex, tag)) =>
    if isCallComplete ev = true then
      ([CallbackArg.twiml [TwimlVerb.say Say.connectedOk]], st1)
    else if wl.numbers.length = 0 then
      ([CallbackArg.twiml unavailableVerbs], st1)
    else if isInitialCall ev = false ∧ wl.numbers.length ≤ currentIndex then
      ([CallbackArg.twiml vmVerbsP1], st1)
    else
      let safeIdx := currentIndex % wl.numbers.length
      match updateCurrentIndexEtag infra.updateFail st1 (currentIndex + 1) tag with
      | (st2, .ok _) => ([CallbackArg.twiml (dialVerbs wl safeIdx)], st2)
      | (st2, .error _e) =>
        ([CallbackArg.twiml (dialVerbs wl safeIdx),
          CallbackArg.twiml (dialVerbs wl safeIdx ++ errVerbs)], st2)

/-- Handler `processCall()` of the blacklist variant.  The blacklist membership
test and the TrueSpam check run first, on every leg, before any store
access.  On the dial path the cursor write (`safeIdx + 1`) happens
before the dial verbs are built and the response sent; a write, fetch
or create error falls into the catch block, which responds with the
apology (the TwiML object holds no dial verbs yet at that point). -/
def processCallBL (wl : Whitelist) (bl : List (List Char)) (ev : CallEvent)
    (infra : Infra) (st : SyncState) : List CallbackArg × SyncState :=
  if ev.From ∈ bl then
    ([CallbackArg.twiml [TwimlVerb.reject]], st)
  else if spamGateRejects ev.addOns = true then
    ([CallbackArg.twiml [TwimlVerb.reject]], st)
  else
    match getCurrentIndexBL infra st with
    | (st1, .error _e) => ([CallbackArg.twiml errVerbs], st1)
    | (st1, .ok currentIndex) =>
      if isCallComplete ev = true then
        ([CallbackArg.twiml [TwimlVerb.say Say.connectedOk]], st1)
      else if wl.numbers.length = 0 then
        ([CallbackArg.twiml unavailableVerbs], st1)
      else if isInitialCall ev = false ∧ wl.numbers.length ≤ currentIndex then
        ([CallbackArg.twiml vmVerbsP1], st1)
      else
        let safeIdx := currentIndex % wl.numbers.length
        match updateCurrentIndexBL infra.updateFail st1 (safeIdx + 1) with
        | (st2, .ok _) => ([CallbackArg.twiml (dialVerbs wl safeIdx)], st2)
        | (st2, .error _e) => ([CallbackArg.twiml errVerbs], st2)

/-- The basic variant run over a sequence of legs against a healthy
store, threading the store state; yields each leg's callback invocations
and post-leg store state. -/
def runSeqBasic (wl : Whitelist) : List CallEvent → SyncState → List (List CallbackArg × SyncState)
  | [], _ => []
  | e :: rest, st =>
    let p := processCallBasic wl e healthyInfra st
    p :: runSeqBasic wl rest p.2

/-- The blacklist variant run over a sequence of legs against a healthy
store. -/
def runSeqBL (wl : Whitelist) (bl : List (List Char)) :
    List CallEvent → SyncState → List (List CallbackArg × SyncState)
  | [], _ => []
  | e :: rest, st =>
    let p := processCallBL wl bl e healthyInfra st
    p :: runSeqBL wl bl rest p.2

/-- The cursor currently persisted in the store, if any. -/
def cursorOf (st : SyncState) : Option Nat :=
  st.doc.map (fun d => d.data)

/-- What a leg shows externally: its callback invocations and the cursor
persisted after it. -/
def legView (p : List CallbackArg × SyncState) : List CallbackArg × Option Nat :=
  (p.1, cursorOf p.2)

/-- Concrete E.164-valid numbers and names for witnesses. -/
def numA : List Char := ['+', '1', '5', '5', '5', '1', '2', '3', '4', '5', '6', '7']

def numB : List Char := ['+', '1', '5', '5', '5', '7', '6', '5', '4', '3', '2', '1']

def nameA : List Char := ['A']

def nameB : List Char := ['B']

def callerX : List Char := ['+', '1', '2', '0', '6', '5', '5', '5', '0', '1', '0', '0']

/-- A number failing the E.164 test. -/
def badNum : List Char := ['a', 'b', 'c']

def wlA : Whitelist := ⟨[numA], [nameA]⟩

def wl2 : Whitelist := ⟨[numA, numB], [nameA, nameB]⟩

/-- Store holding the document with cursor 0 at revision 0. -/
def st0 : SyncState := ⟨some ⟨0, 0⟩⟩

/-- Fresh store: the session document does not exist yet. -/
def freshState : SyncState := ⟨none⟩

/-! ## Helper lemmas -/

/-- One unfolding step of `runSeqBasic`. -/
theorem runSeqBasic_cons (wl : Whitelist) (e : CallEvent) (rest : List CallEvent)
    (st : SyncState) :
    runSeqBasic wl (e :: rest) st =
      processCallBasic wl e healthyInfra st ::
        runSeqBasic wl rest (processCallBasic wl e healthyInfra st).2 := rfl

/-- One unfolding step of `runSeqBL`. -/
theorem runSeqBL_cons (wl : Whitelist) (bl : List (List Char)) (e : CallEvent)
    (rest : List CallEvent) (st : SyncState) :
    runSeqBL wl bl (e :: rest) st =
      processCallBL wl bl e healthyInfra st ::
        runSeqBL wl bl rest (processCallBL wl bl e healthyInfra st).2 := rfl

/-- A no-answer leg of the basic variant at an in-range cursor dials the
entry at the cursor and advances it. -/
theorem processCallBasic_noAnswer_step (wl : Whitelist) (ev : CallEvent) (c t : Nat)
    (hst : ev.dialCallStatus = some DialCallStatus.noAnswer)
    (hlt : c < wl.numbers.length) :
    processCallBasic wl ev healthyInfra ⟨some ⟨c, t⟩⟩ =
      ([CallbackArg.twiml (dialVerbs wl c)], ⟨some ⟨c + 1, t + 1⟩⟩) := by
  have hcomp : isCallComplete ev = false := by simp [isCallComplete, hst]
  have hinit : isInitialCall ev = false := by simp [isInitialCall, hst]
  have hne : ¬ (wl.numbers.length = 0) := by omega
  have hnle : ¬ (wl.numbers.length ≤ c) := by omega
  have hmod : c % wl.numbers.length = c := Nat.mod_eq_of_lt hlt
  simp [processCallBasic, getCurrentIndexBasic, getSyncDocument, fetchOp,
    healthyInfra, updateOp, hcomp, hinit, hne, hnle, hmod]

/-- An admitted no-answer leg of the blacklist variant at an in-range
cursor dials the entry at the cursor and advances it. -/
theorem processCallBL_noAnswer_step (wl : Whitelist) (bl : List (List Char))
    (ev : CallEvent) (c t : Nat)
    (hst : ev.dialCallStatus = some DialCallStatus.noAnswer)
    (hbl : ev.From ∉ bl) (hspam : spamGateRejects ev.addOns = false)
    (hlt : c < wl.numbers.length) :
    processCallBL wl bl ev healthyInfra ⟨some ⟨c, t⟩⟩ =
      ([CallbackArg.twiml (dialVerbs wl c)], ⟨some ⟨c + 1, t + 1⟩⟩) := by
  have hcomp : isCallComplete ev = false := by simp [isCallComplete, hst]
  have hinit : isInitialCall ev = false := by simp [isInitialCall, hst]
  have hne : ¬ (wl.numbers.length = 0) := by omega
  have hnle : ¬ (wl.numbers.length ≤ c) := by omega
  have hmod : c % wl.numbers.length = c := Nat.mod_eq_of_lt hlt
  simp [processCallBL, getCurrentIndexBL, fetchOp, healthyInfra,
    updateCurrentIndexBL, updateOp, hbl, hspam, hcomp, hinit, hne, hnle, hmod]

/-- Loop invariant for the basic variant: `k + 1` consecutive no-answer
legs starting at cursor `c` with `c + k = N` dial entries `c, …, N-1`
(advancing the cursor past each) and then route the final leg to
voicemail leaving the cursor at `N`. -/
theorem runSeqBasic_noAnswer (wl : Whitelist) (ev : CallEvent)
    (hst : ev.dialCallStatus = some DialCallStatus.noAnswer)
    (hlen : 1 ≤ wl.numbers.length) :
    ∀ k c t : Nat, c + k = wl.numbers.length →
      (runSeqBasic wl (List.replicate (k + 1) ev) ⟨some ⟨c, t⟩⟩).map legView =
        (List.range' c k).map
          (fun i => ([CallbackArg.twiml (dialVerbs wl i)], some (i + 1)))
          ++ [([CallbackArg.twiml vmVerbsBasic], some wl.numbers.length)] := by
  have hcomp : isCallComplete ev = false := by simp [isCallComplete, hst]
  have hinit : isInitialCall ev = false := by simp [isInitialCall, hst]
  intro k
  induction k with
  | zero =>
    intro c t hc
    have hc' : c = wl.numbers.length := by omega
    subst hc'
    have hne : ¬ (wl.numbers.length = 0) := by omega
    simp [runSeqBasic, processCallBasic, getCurrentIndexBasic, getSyncDocument,
      fetchOp, healthyInfra, hcomp, hinit, hne, legView, cursorOf]
  | succ m ih =>
    intro c t hc
    have hlt : c < wl.numbers.length := by omega
    rw [List.replicate_succ, List.range'_succ, runSeqBasic_cons,
      processCallBasic_noAnswer_step wl ev c t hst hlt]
    simp only [List.map_cons]
    rw [ih (c + 1) (t + 1) (by omega)]
    simp [legView, cursorOf]

/-- Loop invariant for the blacklist variant: identical round-robin
behaviour on admitted no-answer legs (the write value `safeIdx + 1`
coincides with `cursor + 1` while the cursor is in range). -/
theorem runSeqBL_noAnswer (wl : Whitelist) (bl : List (List Char)) (ev : CallEvent)
    (hst : ev.dialCallStatus = some DialCallStatus.noAnswer)
    (hlen : 1 ≤ wl.numbers.length)
    (hbl : ev.From ∉ bl) (hspam : spamGateRejects ev.addOns = false) :
    ∀ k c t : Nat, c + k = wl.numbers.length →
      (runSeqBL wl bl (List.replicate (k + 1) ev) ⟨some ⟨c, t⟩⟩).map legView =
        (List.range' c k).map
          (fun i => ([CallbackArg.twiml (dialVerbs wl i)], some (i + 1)))
          ++ [([CallbackArg.twiml vmVerbsP1], some wl.numbers.length)] := by
  have hcomp : isCallComplete ev = false := by simp [isCallComplete, hst]
  have hinit : isInitialCall ev = false := by simp [isInitialCall, hst]
  intro k
  induction k with
  | zero =>
    intro c t hc
    have hc' : c = wl.numbers.length := by omega
    subst hc'
    have hne : ¬ (wl.numbers.length = 0) := by omega
    simp [runSeqBL, processCallBL, getCurrentIndexBL, fetchOp, healthyInfra,
      hbl, hspam, hcomp, hinit, hne, legView, cursorOf]
  | succ m ih =>
    intro c t hc
    have hlt : c < wl.numbers.length := by omega
    rw [List.replicate_succ, List.range'_succ, runSeqBL_cons,
      processCallBL_noAnswer_step wl bl ev c t hst hbl hspam hlt]
    simp only [List.map_cons]
    rw [ih (c + 1) (t + 1) (by omega)]
    simp [legView, cursorOf]

/-! ## Claim theorems -/

/-- C1: for every Forwarding List of length `N ≥ 1` and a call sequence
of an initial leg followed by `N` consecutive no-answer legs starting
from a fresh session, the engine dials the entries at indices
`0, …, N-1` exactly once each in order with the cursor becoming
`1, 2, …, N`, and the following leg (cursor `N`, not initial) routes to
voicemail without changing the cursor.  Proved for both cited variants
(`call-fowarding.js`, and the blacklist variant for an admitted caller). -/
theorem c1_round_robin_then_voicemail (wl : Whitelist) (f : List Char)
    (a : Option AddOnsPayload) (bl : List (List Char)) (N : Nat)
    (hN : wl.numbers.length = N) (h1 : 1 ≤ N)
    (hbl : f ∉ bl) (hspam : spamGateRejects a = false) :
    (runSeqBasic wl
        (⟨none, f, a⟩ :: List.replicate N ⟨some DialCallStatus.noAnswer, f, a⟩)
        freshState).map legView =
      (List.range N).map (fun i => ([CallbackArg.twiml (dialVerbs wl i)], some (i + 1)))
        ++ [([CallbackArg.twiml vmVerbsBasic], some N)]
    ∧
    (runSeqBL wl bl
        (⟨none, f, a⟩ :: List.replicate N ⟨some DialCallStatus.noAnswer, f, a⟩)
        freshState).map legView =
      (List.range N).map (fun i => ([CallbackArg.twiml (dialVerbs wl i)], some (i + 1)))
        ++ [([CallbackArg.twiml vmVerbsP1], some N)] := by
  subst hN
  obtain ⟨m, hm⟩ : ∃ m, wl.numbers.length = m + 1 := ⟨wl.numbers.length - 1, by omega⟩
  have hlen : 1 ≤ wl.numbers.length := h1
  have hne : ¬ (wl.numbers.length = 0) := by omega
  have hnle : ¬ (wl.numbers.length ≤ 0) := by omega
  constructor
  · have hfirst : processCallBasic wl ⟨none, f, a⟩ healthyInfra freshState =
        ([CallbackArg.twiml (dialVerbs wl 0)], ⟨some ⟨1, 1⟩⟩) := by
      simp [processCallBasic, getCurrentIndexBasic, getSyncDocument, fetchOp,
        createOp, healthyInfra, freshState, updateOp, isCallComplete,
        isInitialCall, hne, hnle]
    rw [hm, runSeqBasic_cons, hfirst]
    simp only [List.map_cons]
    have hrest := runSeqBasic_noAnswer wl ⟨some DialCallStatus.noAnswer, f, a⟩ rfl hlen m 1 1 (by omega)
    rw [hrest, hm]
    rw [List.range_eq_range', List.range'_succ]
    simp [legView, cursorOf]
  · have hfirst : processCallBL wl bl ⟨none, f, a⟩ healthyInfra freshState =
        ([CallbackArg.twiml (dialVerbs wl 0)], ⟨some ⟨1, 1⟩⟩) := by
      simp [processCallBL, getCurrentIndexBL, fetchOp, createOp, healthyInfra,
        freshState, updateCurrentIndexBL, updateOp, isCallComplete,
        isInitialCall, hbl, hspam, hne, hnle]
    rw [hm, runSeqBL_cons, hfirst]
    simp only [List.map_cons]
    have hrest := runSeqBL_noAnswer wl bl ⟨some DialCallStatus.noAnswer, f, a⟩ rfl hlen hbl hspam m 1 1 (by omega)
    rw [hrest, hm]
    rw [List.range_eq_range', List.range'_succ]
    simp [legView, cursorOf]

/-- Witness for C1 at the one-entry list `wlA` with an unlisted caller. -/
theorem c1_round_robin_witness :
    (runSeqBasic wlA
        (⟨none, callerX, none⟩ :: List.replicate 1 ⟨some DialCallStatus.noAnswer, callerX, none⟩)
        freshState).map legView =
      (List.range 1).map (fun i => ([CallbackArg.twiml (dialVerbs wlA i)], some (i + 1)))
        ++ [([CallbackArg.twiml vmVerbsBasic], some 1)]
    ∧
    (runSeqBL wlA []
        (⟨none, callerX, none⟩ :: List.replicate 1 ⟨some DialCallStatus.noAnswer, callerX, none⟩)
        freshState).map legView =
      (List.range 1).map (fun i => ([CallbackArg.twiml (dialVerbs wlA i)], some (i + 1)))
        ++ [([CallbackArg.twiml vmVerbsP1], some 1)] :=
  c1_round_robin_then_voicemail wlA callerX none [] 1 rfl (by decide) (by decide) (by decide)

/-- C2 counterexample: etag variant, one-entry list, initial leg with
stale cursor 1 (= list length).  The entry at index 0 is dialled, but
the persisted cursor afterwards is 2, not 1 as the claim states (the
etag variant persists `cursor + 1`, it never resets the read cursor). -/
theorem c2_counterexample :
    processCallEtag wlA ⟨none, callerX, none⟩ healthyInfra ⟨some ⟨1, 0⟩⟩ =
      ([CallbackArg.twiml (dialVerbs wlA 0)], ⟨some ⟨2, 1⟩⟩)
    ∧ cursorOf ⟨some ⟨2, 1⟩⟩ ≠ some 1 := by decide

/-- C2 (amended): on an initial leg with stored cursor `c ≥ listLength`
over a non-empty list, both part_001 variants dial the entry at index
`c mod listLength` (index 0 when `c = listLength`); the blacklist
variant persists `(c mod listLength) + 1` — hence 1 when
`c = listLength` — while the etag variant persists `c + 1`.  A
non-initial leg with `c ≥ listLength` still routes to voicemail without
touching the cursor, so no wraparound ever happens on a forwarded leg. -/
theorem c2_stale_cursor_amended (wl : Whitelist) (bl : List (List Char))
    (ev evN : CallEvent) (c t : Nat)
    (hInit : ev.dialCallStatus = none)
    (hN : evN.dialCallStatus = some DialCallStatus.noAnswer)
    (hlen : 1 ≤ wl.numbers.length) (hc : wl.numbers.length ≤ c)
    (hbl : ev.From ∉ bl) (hspam : spamGateRejects ev.addOns = false)
    (hblN : evN.From ∉ bl) (hspamN : spamGateRejects evN.addOns = false) :
    processCallEtag wl ev healthyInfra ⟨some ⟨c, t⟩⟩ =
      ([CallbackArg.twiml (dialVerbs wl (c % wl.numbers.length))], ⟨some ⟨c + 1, t + 1⟩⟩)
    ∧ processCallBL wl bl ev healthyInfra ⟨some ⟨c, t⟩⟩ =
      ([CallbackArg.twiml (dialVerbs wl (c % wl.numbers.length))],
        ⟨some ⟨c % wl.numbers.length + 1, t + 1⟩⟩)
    ∧ processCallEtag wl evN healthyInfra ⟨some ⟨c, t⟩⟩ =
      ([CallbackArg.twiml vmVerbsP1], ⟨some ⟨c, t⟩⟩)
    ∧ processCallBL wl bl evN healthyInfra ⟨some ⟨c, t⟩⟩ =
      ([CallbackArg.twiml vmVerbsP1], ⟨some ⟨c, t⟩⟩) := by
  have hcomp : isCallComplete ev = false := by simp [isCallComplete, hInit]
  have hinit : isInitialCall ev = true := by simp [isInitialCall, hInit]
  have hcompN : isCallComplete evN = false := by simp [isCallComplete, hN]
  have hinitN : isInitialCall evN = false := by simp [isInitialCall, hN]
  have hne : ¬ (wl.numbers.length = 0) := by omega
  refine ⟨?_, ?_, ?_, ?_⟩
  · simp [processCallEtag, getCurrentIndexAndEtag, fetchOp, healthyInfra,
      updateCurrentIndexEtag, condUpdateOp, hcomp, hinit, hne]
  · simp [processCallBL, getCurrentIndexBL, fetchOp, healthyInfra,
      updateCurrentIndexBL, updateOp, hbl, hspam, hcomp, hinit, hne]
  · simp [processCallEtag, getCurrentIndexAndEtag, fetchOp, healthyInfra,
      hcompN, hinitN, hne, hc]
  · simp [processCallBL, getCurrentIndexBL, fetchOp, healthyInfra,
      hblN, hspamN, hcompN, hinitN, hne, hc]

/-- Witness for the amended C2: stale cursor 5 over the two-entry list
`wl2` — both variants dial index `5 mod 2 = 1`; the etag variant
persists 6, the blacklist variant persists 2. -/
theorem c2_stale_cursor_witness :
    processCallEtag wl2 ⟨none, callerX, none⟩ healthyInfra ⟨some ⟨5, 3⟩⟩ =
      ([CallbackArg.twiml (dialVerbs wl2 (5 % wl2.numbers.length))], ⟨some ⟨5 + 1, 3 + 1⟩⟩)
    ∧ processCallBL wl2 [] ⟨none, callerX, none⟩ healthyInfra ⟨some ⟨5, 3⟩⟩ =
      ([CallbackArg.twiml (dialVerbs wl2 (5 % wl2.numbers.length))],
        ⟨some ⟨5 % wl2.numbers.length + 1, 3 + 1⟩⟩)
    ∧ processCallEtag wl2 ⟨some DialCallStatus.noAnswer, callerX, none⟩ healthyInfra ⟨some ⟨5, 3⟩⟩ =
      ([CallbackArg.twiml vmVerbsP1], ⟨some ⟨5, 3⟩⟩)
    ∧ processCallBL wl2 [] ⟨some DialCallStatus.noAnswer, callerX, none⟩ healthyInfra ⟨some ⟨5, 3⟩⟩ =
      ([CallbackArg.twiml vmVerbsP1], ⟨some ⟨5, 3⟩⟩) :=
  c2_stale_cursor_amended wl2 [] ⟨none, callerX, none⟩
    ⟨some DialCallStatus.noAnswer, callerX, none⟩ 5 3 rfl rfl (by decide) (by decide)
    (by decide) (by decide) (by decide) (by decide)

/-- C3 counterexample: in the blacklist variant a NON-initial leg
(`DialCallStatus = no-answer`) from a blacklisted caller is rejected by
the gate, contradicting the claim that the gate applies only to the
initial leg. -/
theorem c3_counterexample :
    processCallBL wlA [callerX] ⟨some DialCallStatus.noAnswer, callerX, none⟩
        healthyInfra st0 =
      ([CallbackArg.twiml [TwimlVerb.reject]], st0)
    ∧ isInitialCall ⟨some DialCallStatus.noAnswer, callerX, none⟩ = false := by decide

/-- C3 (amended): the admission gate of the blacklist variant runs on
EVERY leg, before any store access: any leg whose caller is blacklisted,
and any non-blacklisted leg carrying a spam annotation at or above the
threshold, is rejected regardless of its `legStatus` and of the stored
cursor, and the store is left untouched. -/
theorem c3_gate_every_leg (wl : Whitelist) (bl : List (List Char)) (ev : CallEvent)
    (infra : Infra) (st : SyncState) :
    (ev.From ∈ bl →
      processCallBL wl bl ev infra st = ([CallbackArg.twiml [TwimlVerb.reject]], st))
    ∧ (ev.From ∉ bl → spamGateRejects ev.addOns = true →
      processCallBL wl bl ev infra st = ([CallbackArg.twiml [TwimlVerb.reject]], st)) := by
  constructor
  · intro hmem
    simp [processCallBL, hmem]
  · intro hmem hspam
    simp [processCallBL, hmem, hspam]

/-- Witness for the amended C3: a busy (non-initial) leg from a
blacklisted caller is rejected with the store untouched. -/
theorem c3_gate_witness :
    processCallBL wlA [callerX] ⟨some DialCallStatus.busy, callerX, none⟩
        healthyInfra st0 =
      ([CallbackArg.twiml [TwimlVerb.reject]], st0) :=
  (c3_gate_every_leg wlA [callerX] ⟨some DialCallStatus.busy, callerX, none⟩
    healthyInfra st0).1 (by decide)

/-- C4 counterexample: in `call-fowarding.js` the Dial response is NOT
independent of the cursor write — on a dial leg whose write fails, the
handler answers with `callback(err)` instead of the dial instruction,
while the same leg with a healthy write answers with the dial. -/
theorem c4_counterexample :
    (processCallBasic wlA ⟨none, callerX, none⟩ ⟨none, none, some StoreErr.other⟩ st0).1 =
      [CallbackArg.err StoreErr.other]
    ∧ (processCallBasic wlA ⟨none, callerX, none⟩ healthyInfra st0).1 =
      [CallbackArg.twiml (dialVerbs wlA 0)]
    ∧ [CallbackArg.err StoreErr.other] ≠ [CallbackArg.twiml (dialVerbs wlA 0)] := by decide

/-- C4 (amended): only the etag variant answers the Dial leg
independently of the cursor write — its first callback invocation is the
dial response for every write outcome.  In the basic variant a failed
write replaces the response with `callback(err)`, and in the blacklist
variant (which writes before dialling) a failed write replaces it with
the apology-and-hangup response; in both, no dial response is emitted. -/
theorem c4_dial_response_amended (wl : Whitelist) (bl : List (List Char))
    (ev : CallEvent) (infra : Infra) (c t : Nat) (e : StoreErr)
    (hf : infra.fetchFail = none)
    (hcomp : isCallComplete ev = false)
    (hlen : 1 ≤ wl.numbers.length)
    (hnvm : isInitialCall ev = true ∨ c < wl.numbers.length)
    (hbl : ev.From ∉ bl) (hspam : spamGateRejects ev.addOns = false)
    (hu : infra.updateFail = some e) :
    (processCallEtag wl ev infra ⟨some ⟨c, t⟩⟩).1.head? =
      some (CallbackArg.twiml (dialVerbs wl (c % wl.numbers.length)))
    ∧ (processCallBasic wl ev infra ⟨some ⟨c, t⟩⟩).1 = [CallbackArg.err e]
    ∧ (processCallBL wl bl ev infra ⟨some ⟨c, t⟩⟩).1 = [CallbackArg.twiml errVerbs] := by
  have hne : ¬ (wl.numbers.length = 0) := by omega
  have hvm : ¬ (isInitialCall ev = false ∧ wl.numbers.length ≤ c) := by
    rcases hnvm with h | h
    · simp [h]
    · intro hcon
      omega
  refine ⟨?_, ?_, ?_⟩
  · rcases e with _ | _ | _ <;>
      simp [processCallEtag, getCurrentIndexAndEtag, fetchOp, hf,
        updateCurrentIndexEtag, condUpdateOp, hu, hcomp, hne, hvm]
  · simp [processCallBasic, getCurrentIndexBasic, getSyncDocument, fetchOp, hf,
      updateOp, hu, hcomp, hne, hvm]
  · simp [processCallBL, getCurrentIndexBL, fetchOp, hf,
      updateCurrentIndexBL, updateOp, hu, hbl, hspam, hcomp, hne, hvm]

/-- Witness for the amended C4 at a concrete failing write
(`updateFail = other`) on an initial leg over `wlA`. -/
theorem c4_dial_response_witness :
    (processCallEtag wlA ⟨none, callerX, none⟩ ⟨none, none, some StoreErr.other⟩
        ⟨some ⟨0, 0⟩⟩).1.head? =
      some (CallbackArg.twiml (dialVerbs wlA (0 % wlA.numbers.length)))
    ∧ (processCallBasic wlA ⟨none, callerX, none⟩ ⟨none, none, some StoreErr.other⟩
        ⟨some ⟨0, 0⟩⟩).1 = [CallbackArg.err StoreErr.other]
    ∧ (processCallBL wlA [] ⟨none, callerX, none⟩ ⟨none, none, some StoreErr.other⟩
        ⟨some ⟨0, 0⟩⟩).1 = [CallbackArg.twiml errVerbs] :=
  c4_dial_response_amended wlA [] ⟨none, callerX, none⟩
    ⟨none, none, some StoreErr.other⟩ 0 0 StoreErr.other rfl (by decide) (by decide)
    (Or.inl (by decide)) (by decide) (by decide) rfl

/-- C5: the claim says every activation invokes the response callback
exactly once, for every combination of inputs and store outcomes.  The
cited etag variant violates it: on a dial leg whose conditional write
fails with a non-conflict error, the callback is invoked twice — first
with the dial response, then (from the catch block, on the same TwiML
object) with the appended apology-and-hangup. -/
theorem c5_double_callback :
    (processCallEtag wlA ⟨none, callerX, none⟩ ⟨none, none, some StoreErr.other⟩ st0).1 =
      [CallbackArg.twiml (dialVerbs wlA 0),
       CallbackArg.twiml (dialVerbs wlA 0 ++ errVerbs)]
    ∧ (processCallEtag wlA ⟨none, callerX, none⟩
        ⟨none, none, some StoreErr.other⟩ st0).1.length = 2 := by decide

/-- C6: in the etag variant's `updateCurrentIndex` a conditional-write
conflict (the stored revision token no longer matches the one read
during the leg) is swallowed: the operation returns success, the store —
holding the concurrent writer's value — is left untouched, and at the
`processCall` level a conflicting write on a dial leg produces the
single dial response and no error response.  Every non-conflict write
error is re-raised. -/
theorem c6_conflict_swallowed (st : SyncState) (d : SyncDoc) (newIndex tag : Nat)
    (hdoc : st.doc = some d) (hne : d.etag ≠ tag) :
    updateCurrentIndexEtag none st newIndex tag = (st, Except.ok ())
    ∧ (∀ (e : StoreErr), e ≠ StoreErr.conflict → ∀ (st' : SyncState) (ni tg : Nat),
        updateCurrentIndexEtag (some e) st' ni tg = (st', Except.error e))
    ∧ (∀ (wl : Whitelist) (ev : CallEvent) (c t : Nat),
        isCallComplete ev = false → 1 ≤ wl.numbers.length →
        (isInitialCall ev = true ∨ c < wl.numbers.length) →
        processCallEtag wl ev ⟨none, none, some StoreErr.conflict⟩ ⟨some ⟨c, t⟩⟩ =
          ([CallbackArg.twiml (dialVerbs wl (c % wl.numbers.length))], ⟨some ⟨c, t⟩⟩)) := by
  refine ⟨?_, ?_, ?_⟩
  · simp [updateCurrentIndexEtag, condUpdateOp, hdoc, hne]
  · intro e he st' ni tg
    rcases e with _ | _ | _
    · simp [updateCurrentIndexEtag, condUpdateOp]
    · exact absurd rfl he
    · simp [updateCurrentIndexEtag, condUpdateOp]
  · intro wl ev c t hcomp hlen hnvm
    have hne0 : ¬ (wl.numbers.length = 0) := by omega
    have hvm : ¬ (isInitialCall ev = false ∧ wl.numbers.length ≤ c) := by
      rcases hnvm with h | h
      · simp [h]
      · intro hcon
        omega
    simp [processCallEtag, getCurrentIndexAndEtag, fetchOp,
      updateCurrentIndexEtag, condUpdateOp, hcomp, hne0, hvm]

/-- Witness for C6: a document at revision 5 against a token 3 read
earlier — the conflicting write succeeds as a no-op, leaving the
concurrently written cursor 7 in place. -/
theorem c6_conflict_witness :
    updateCurrentIndexEtag none ⟨some ⟨7, 5⟩⟩ 9 3 = (⟨some ⟨7, 5⟩⟩, Except.ok ())
    ∧ (∀ (e : StoreErr), e ≠ StoreErr.conflict → ∀ (st' : SyncState) (ni tg : Nat),
        updateCurrentIndexEtag (some e) st' ni tg = (st', Except.error e))
    ∧ (∀ (wl : Whitelist) (ev : CallEvent) (c t : Nat),
        isCallComplete ev = false → 1 ≤ wl.numbers.length →
        (isInitialCall ev = true ∨ c < wl.numbers.length) →
        processCallEtag wl ev ⟨none, none, some StoreErr.conflict⟩ ⟨some ⟨c, t⟩⟩ =
          ([CallbackArg.twiml (dialVerbs wl (c % wl.numbers.length))], ⟨some ⟨c, t⟩⟩)) :=
  c6_conflict_swallowed ⟨some ⟨7, 5⟩⟩ ⟨7, 5⟩ 9 3 rfl (by decide)

/-- C7 counterexample: the creation race is not tolerated.  With the
document already present (cursor 5) but the fetch reporting 404 (it
raced with a concurrent creation), the subsequent create fails with a
conflict and `getCurrentIndex` propagates the error instead of falling
back to a fetch returning 5. -/
theorem c7_counterexample :
    getCurrentIndexBL ⟨some StoreErr.notFound, none, none⟩ ⟨some ⟨5, 0⟩⟩ =
      (⟨some ⟨5, 0⟩⟩, Except.error StoreErr.conflict)
    ∧ (Except.error StoreErr.conflict : Except StoreErr Nat) ≠ Except.ok 5 := by
  refine ⟨rfl, ?_⟩
  intro h
  exact Except.noConfusion h

/-- C7 (amended): on a session never seen before (document absent) with
the store healthy, all three getter variants create the document with
cursor 0 and return 0; but none of them tolerates a creation race — when
the fetch reports absence while the document already exists, the create
fails with a conflict that is propagated, with no fallback fetch. -/
theorem c7_get_or_create_amended (infra : Infra)
    (hf : infra.fetchFail = none) (hc : infra.createFail = none) :
    getCurrentIndexBL infra freshState = (⟨some ⟨0, 0⟩⟩, Except.ok 0)
    ∧ getCurrentIndexAndEtag infra freshState = (⟨some ⟨0, 0⟩⟩, Except.ok (0, 0))
    ∧ getCurrentIndexBasic infra freshState = (⟨some ⟨0, 0⟩⟩, Except.ok 0)
    ∧ (∀ d : SyncDoc, getCurrentIndexBL ⟨some StoreErr.notFound, none, none⟩ ⟨some d⟩ =
        (⟨some d⟩, Except.error StoreErr.conflict)) := by
  refine ⟨?_, ?_, ?_, ?_⟩
  · simp [getCurrentIndexBL, fetchOp, createOp, freshState, hf, hc]
  · simp [getCurrentIndexAndEtag, fetchOp, createOp, freshState, hf, hc]
  · simp [getCurrentIndexBasic, getSyncDocument, fetchOp, createOp, freshState, hf, hc]
  · intro d
    simp [getCurrentIndexBL, fetchOp, createOp]

/-- Witness for the amended C7 with a fully healthy store. -/
theorem c7_get_or_create_witness :
    getCurrentIndexBL healthyInfra freshState = (⟨some ⟨0, 0⟩⟩, Except.ok 0)
    ∧ getCurrentIndexAndEtag healthyInfra freshState = (⟨some ⟨0, 0⟩⟩, Except.ok (0, 0))
    ∧ getCurrentIndexBasic healthyInfra freshState = (⟨some ⟨0, 0⟩⟩, Except.ok 0)
    ∧ (∀ d : SyncDoc, getCurrentIndexBL ⟨some StoreErr.notFound, none, none⟩ ⟨some d⟩ =
        (⟨some d⟩, Except.error StoreErr.conflict)) :=
  c7_get_or_create_amended healthyInfra rfl rfl

/-- C8 counterexample: in the blacklist variant a leg with
`DialCallStatus = completed` from a blacklisted caller is rejected by
the admission gate, not acknowledged as Connected. -/
theorem c8_counterexample :
    processCallBL wlA [callerX] ⟨some DialCallStatus.completed, callerX, none⟩
        healthyInfra st0 =
      ([CallbackArg.twiml [TwimlVerb.reject]], st0)
    ∧ [CallbackArg.twiml [TwimlVerb.reject]] ≠
        [CallbackArg.twiml [TwimlVerb.say Say.connectedOk]] := by decide

/-- C8 (amended): every completed/answered leg that passes the
admission gate (always, in the basic and etag variants) and whose
cursor read succeeds returns the Connected acknowledgment and leaves
the store untouched, for every cursor value. -/
theorem c8_connected_amended (wl : Whitelist) (bl : List (List Char)) (ev : CallEvent)
    (infra : Infra) (c t : Nat)
    (hcomp : isCallComplete ev = true) (hf : infra.fetchFail = none)
    (hbl : ev.From ∉ bl) (hspam : spamGateRejects ev.addOns = false) :
    processCallBasic wl ev infra ⟨some ⟨c, t⟩⟩ =
      ([CallbackArg.twiml [TwimlVerb.say Say.connectedOk]], ⟨some ⟨c, t⟩⟩)
    ∧ processCallEtag wl ev infra ⟨some ⟨c, t⟩⟩ =
      ([CallbackArg.twiml [TwimlVerb.say Say.connectedOk]], ⟨some ⟨c, t⟩⟩)
    ∧ processCallBL wl bl ev infra ⟨some ⟨c, t⟩⟩ =
      ([CallbackArg.twiml [TwimlVerb.say Say.connectedOk]], ⟨some ⟨c, t⟩⟩) := by
  refine ⟨?_, ?_, ?_⟩
  · simp [processCallBasic, getCurrentIndexBasic, getSyncDocument, fetchOp, hf, hcomp]
  · simp [processCallEtag, getCurrentIndexAndEtag, fetchOp, hf, hcomp]
  · simp [processCallBL, getCurrentIndexBL, fetchOp, hf, hbl, hspam, hcomp]

/-- Witness for the amended C8: an answered leg at cursor 42. -/
theorem c8_connected_witness :
    processCallBasic wlA ⟨some DialCallStatus.answered, callerX, none⟩ healthyInfra
        ⟨some ⟨42, 7⟩⟩ =
      ([CallbackArg.twiml [TwimlVerb.say Say.connectedOk]], ⟨some ⟨42, 7⟩⟩)
    ∧ processCallEtag wlA ⟨some DialCallStatus.answered, callerX, none⟩ healthyInfra
        ⟨some ⟨42, 7⟩⟩ =
      ([CallbackArg.twiml [TwimlVerb.say Say.connectedOk]], ⟨some ⟨42, 7⟩⟩)
    ∧ processCallBL wlA [] ⟨some DialCallStatus.answered, callerX, none⟩ healthyInfra
        ⟨some ⟨42, 7⟩⟩ =
      ([CallbackArg.twiml [TwimlVerb.say Say.connectedOk]], ⟨some ⟨42, 7⟩⟩) :=
  c8_connected_amended wlA [] ⟨some DialCallStatus.answered, callerX, none⟩
    healthyInfra 42 7 (by decide) rfl (by decide) (by decide)

/-- C9 counterexample: `call-fowarding.js` performs no E.164 validation
at load time — an entry whose number fails the test is kept, the loaded
list is non-empty, and an initial leg dials the invalid number instead
of reaching the Unavailable outcome. -/
theorem c9_counterexample :
    (loadWhitelistedNumbersBasic [⟨badNum, nameA⟩]).numbers = [badNum]
    ∧ isE164 badNum = false
    ∧ (processCallBasic (loadWhitelistedNumbersBasic [⟨badNum, nameA⟩])
        ⟨none, callerX, none⟩ healthyInfra st0).1 =
      [CallbackArg.twiml (dialVerbs (loadWhitelistedNumbersBasic [⟨badNum, nameA⟩]) 0)] := by
  decide

/-- C9 (amended): in the part_001 variants, entries are validated
against E.164 at load time and invalid entries are silently dropped, so
a list in which every entry fails validation loads identically to the
empty list; with that empty load, every admitted non-Connected leg
whose cursor read succeeds gets the Unavailable response (apology plus
hangup) with no cursor write and no dial.  The `call-fowarding.js`
loader performs no such validation. -/
theorem c9_invalid_list_amended (entries : List WhitelistEntry)
    (bl : List (List Char)) (ev : CallEvent) (infra : Infra) (c t : Nat)
    (hinv : ∀ e ∈ entries, isE164 e.number = false)
    (hcomp : isCallComplete ev = false) (hf : infra.fetchFail = none)
    (hbl : ev.From ∉ bl) (hspam : spamGateRejects ev.addOns = false) :
    loadWhitelistedNumbers entries = loadWhitelistedNumbers []
    ∧ processCallEtag (loadWhitelistedNumbers entries) ev infra ⟨some ⟨c, t⟩⟩ =
      ([CallbackArg.twiml unavailableVerbs], ⟨some ⟨c, t⟩⟩)
    ∧ processCallBL (loadWhitelistedNumbers entries) bl ev infra ⟨some ⟨c, t⟩⟩ =
      ([CallbackArg.twiml unavailableVerbs], ⟨some ⟨c, t⟩⟩) := by
  have hempty : loadWhitelistedNumbers entries = loadWhitelistedNumbers [] := by
    simp [loadWhitelistedNumbers, List.filter_eq_nil_iff]
    intro e he
    simp [hinv e he]
  have hlen : (loadWhitelistedNumbers entries).numbers.length = 0 := by
    rw [hempty]
    simp [loadWhitelistedNumbers]
  refine ⟨hempty, ?_, ?_⟩
  · simp [processCallEtag, getCurrentIndexAndEtag, fetchOp, hf, hcomp, hlen]
  · simp [processCallBL, getCurrentIndexBL, fetchOp, hf, hbl, hspam, hcomp, hlen]

/-- Witness for the amended C9: a one-entry list whose only number is
invalid behaves as empty on an initial leg. -/
theorem c9_invalid_list_witness :
    loadWhitelistedNumbers [⟨badNum, nameA⟩] = loadWhitelistedNumbers []
    ∧ processCallEtag (loadWhitelistedNumbers [⟨badNum, nameA⟩])
        ⟨none, callerX, none⟩ healthyInfra ⟨some ⟨0, 0⟩⟩ =
      ([CallbackArg.twiml unavailableVerbs], ⟨some ⟨0, 0⟩⟩)
    ∧ processCallBL (loadWhitelistedNumbers [⟨badNum, nameA⟩]) []
        ⟨none, callerX, none⟩ healthyInfra ⟨some ⟨0, 0⟩⟩ =
      ([CallbackArg.twiml unavailableVerbs], ⟨some ⟨0, 0⟩⟩) :=
  c9_invalid_list_amended [⟨badNum, nameA⟩] [] ⟨none, callerX, none⟩ healthyInfra 0 0
    (by decide) (by decide) rfl (by decide) (by decide)

/-- C10: in the blacklist variant, on every leg where a Dial decision is
made over a list of length `N ≥ 1` with read cursor `c`, the value
written to the store is `(c mod N) + 1`; hence the stored cursor after
such a leg lies in `[1, N]`, and whenever the previously stored value
exceeded `N` the write strictly decreases it. -/
theorem c10_bl_write_value (wl : Whitelist) (bl : List (List Char)) (ev : CallEvent)
    (c t : Nat)
    (hbl : ev.From ∉ bl) (hspam : spamGateRejects ev.addOns = false)
    (hcomp : isCallComplete ev = false) (hlen : 1 ≤ wl.numbers.length)
    (hnvm : isInitialCall ev = true ∨ c < wl.numbers.length) :
    processCallBL wl bl ev healthyInfra ⟨some ⟨c, t⟩⟩ =
      ([CallbackArg.twiml (dialVerbs wl (c % wl.numbers.length))],
        ⟨some ⟨c % wl.numbers.length + 1, t + 1⟩⟩)
    ∧ 1 ≤ c % wl.numbers.length + 1
    ∧ c % wl.numbers.length + 1 ≤ wl.numbers.length
    ∧ (wl.numbers.length < c → c % wl.numbers.length + 1 < c) := by
  have hne : ¬ (wl.numbers.length = 0) := by omega
  have hvm : ¬ (isInitialCall ev = false ∧ wl.numbers.length ≤ c) := by
    rcases hnvm with h | h
    · simp [h]
    · intro hcon
      omega
  have hmlt : c % wl.numbers.length < wl.numbers.length :=
    Nat.mod_lt _ (by omega)
  refine ⟨?_, Nat.succ_le_succ (Nat.zero_le _), Nat.succ_le_of_lt hmlt,
    fun h => lt_of_le_of_lt (Nat.succ_le_of_lt hmlt) h⟩
  simp [processCallBL, getCurrentIndexBL, fetchOp, healthyInfra,
    updateCurrentIndexBL, updateOp, hbl, hspam, hcomp, hne, hvm]

/-- Witness for C10: stale cursor 5 over the two-entry list — the write
is `5 mod 2 + 1 = 2`, inside `[1, 2]` and strictly below 5. -/
theorem c10_bl_write_witness :
    processCallBL wl2 [] ⟨none, callerX, none⟩ healthyInfra ⟨some ⟨5, 3⟩⟩ =
      ([CallbackArg.twiml (dialVerbs wl2 (5 % wl2.numbers.length))],
        ⟨some ⟨5 % wl2.numbers.length + 1, 3 + 1⟩⟩)
    ∧ 1 ≤ 5 % wl2.numbers.length + 1
    ∧ 5 % wl2.numbers.length + 1 ≤ wl2.numbers.length
    ∧ (wl2.numbers.length < 5 → 5 % wl2.numbers.length + 1 < 5) :=
  c10_bl_write_value wl2 [] ⟨none, callerX, none⟩ 5 3 (by decide) (by decide)
    (by decide) (by decide) (Or.inl (by decide))

end CallForwarding
